import Mathlib

/- Verification development for the TSAP-Club statistics pipeline.

The definitions below are a shallow embedding of the JavaScript sources:
pure functions become Lean functions, module-level mutable state becomes
explicit state passing, fallible steps return Except, and network fetches
are replaced by parameters holding the already-parsed responses.
JavaScript numbers holding integer counts and ratings are modelled as Int
(or Nat where the source value is a set size); the few fractional values
(accuracy ratios, progress percentages) are modelled as exact rationals. -/

/-- JavaScript logical-or on an optional string value: undefined, null and
the empty string are falsy and select the fallback. -/
def jsOrString (v : Option String) (fallback : String) : String :=
  match v with
  | none => fallback
  | some s => if s = "" then fallback else s

/-- JavaScript logical-or on an optional integer value: undefined, null and
zero are falsy and select the fallback (which may itself model Infinity as
none). -/
def jsOrOptInt (v : Option Int) (fallback : Option Int) : Option Int :=
  match v with
  | none => fallback
  | some n => if n = 0 then fallback else some n

/-- JavaScript Math.round: round half toward positive infinity. -/
def jsRound (x : ℚ) : Int := ⌊x + 1/2⌋

/- ===== Milestone engine (src/recommendations.js, milestone utilities) ===== -/

/-- One entry of the fixed club milestone table. -/
structure ClubMilestoneDef where
  threshold : Int
  reward : String
  icon : String
deriving DecidableEq

/-- CLUB_MILESTONES from the milestone utilities. -/
def CLUB_MILESTONES : List ClubMilestoneDef :=
  [ { threshold := 800, reward := "Chocolate Treat", icon := "🍫" },
    { threshold := 1200, reward := "Cake Cutting", icon := "🎂" },
    { threshold := 2000, reward := "Burger Treat", icon := "🍔" },
    { threshold := 4000, reward := "T-Shirts Distribution", icon := "👕" },
    { threshold := 7000, reward := "Swag Bag", icon := "🎒" },
    { threshold := 10000, reward := "Trophy + Grand Party", icon := "🏆" } ]

/-- A club milestone state row as produced by calculateClubMilestones and as
stored in the club data snapshot.  A null achievement date is none. -/
structure ClubMilestoneState where
  threshold : Int
  reward : String
  icon : String
  achieved : Bool
  date : Option String
  progress : ℚ
deriving DecidableEq

/-- The arrow function mapped over CLUB_MILESTONES inside
calculateClubMilestones.  The impure new Date().toISOString() is passed in
as the parameter now. -/
def clubMilestoneEntry (totalProblemsSolved : Int)
    (existingMilestones : List ClubMilestoneState) (now : String)
    (milestone : ClubMilestoneDef) : ClubMilestoneState :=
  let existing := existingMilestones.find? (fun m => m.threshold == milestone.threshold)
  let achieved : Bool := decide (milestone.threshold ≤ totalProblemsSolved)
  { threshold := milestone.threshold
    reward := milestone.reward
    icon := milestone.icon
    achieved := achieved
    date := if achieved then some (jsOrString (existing.bind (fun m => m.date)) now) else none
    progress := min 100 ((totalProblemsSolved : ℚ) / (milestone.threshold : ℚ) * 100) }

/-- calculateClubMilestones from the milestone utilities. -/
def calculateClubMilestones (totalProblemsSolved : Int)
    (existingMilestones : List ClubMilestoneState) (now : String) :
    List ClubMilestoneState :=
  CLUB_MILESTONES.map (clubMilestoneEntry totalProblemsSolved existingMilestones now)

/-- One entry of the fixed individual milestone table; max is none for the
top tier whose upper bound is Infinity. -/
structure IndividualMilestoneDef where
  level : String
  min : Int
  max : Option Int
  reward : String
  badge : String
  color : String
deriving DecidableEq

/-- INDIVIDUAL_MILESTONES from the milestone utilities (7 tiers). -/
def INDIVIDUAL_MILESTONES : List IndividualMilestoneDef :=
  [ { level := "Beginner", min := 0, max := some 49, reward := "Keep Going!", badge := "🌱", color := "#6b7280" },
    { level := "Bronze Solver", min := 50, max := some 149, reward := "Certificate", badge := "🥉", color := "#cd7f32" },
    { level := "Silver Solver", min := 150, max := some 299, reward := "Club Recognition", badge := "🥈", color := "#c0c0c0" },
    { level := "Gold Solver", min := 300, max := some 599, reward := "Special Badge", badge := "🥇", color := "#ffd700" },
    { level := "Platinum Solver", min := 600, max := some 999, reward := "Elite Status", badge := "💎", color := "#00d4ff" },
    { level := "Diamond Solver", min := 1000, max := some 1499, reward := "Diamond Badge", badge := "💠", color := "#00bfff" },
    { level := "Master Solver ⭐", min := 1500, max := none, reward := "Gold Star + Featured", badge := "⭐", color := "#9b59b6" } ]

/-- The matching predicate used by calculateMemberMilestone:
problemsSolved is at least the tier minimum and at most the tier maximum
(a missing max models Infinity and always passes). -/
def individualMilestoneMatches (problemsSolved : Int) (m : IndividualMilestoneDef) : Bool :=
  decide (m.min ≤ problemsSolved) &&
    (match m.max with
     | none => true
     | some mx => decide (problemsSolved ≤ mx))

/-- Result record of calculateMemberMilestone; problemsRequired is none
when the JavaScript value is Infinity. -/
structure MemberMilestone where
  level : String
  badge : String
  reward : String
  problemsSolved : Int
  problemsRequired : Option Int
  progress : ℚ
  nextReward : String
deriving DecidableEq

/-- calculateMemberMilestone from the milestone utilities. -/
def calculateMemberMilestone (problemsSolved : Int) : Option MemberMilestone :=
  match INDIVIDUAL_MILESTONES.find? (individualMilestoneMatches problemsSolved) with
  | none => none
  | some milestone =>
    let nextMilestone := INDIVIDUAL_MILESTONES.find? (fun m => decide (problemsSolved < m.min))
    let progress : ℚ :=
      match nextMilestone with
      | some nm => ((problemsSolved : ℚ) - (milestone.min : ℚ)) / ((nm.min : ℚ) - (milestone.min : ℚ)) * 100
      | none => 100
    some { level := milestone.level
           badge := milestone.badge
           reward := milestone.reward
           problemsSolved := problemsSolved
           problemsRequired := jsOrOptInt (nextMilestone.map (fun m => m.min)) milestone.max
           progress := min 100 (max 0 progress)
           nextReward := jsOrString (nextMilestone.map (fun m => m.reward)) "Max Level Reached" }

/-- getNewlyAchievedMilestones from the milestone utilities: the forEach
plus push loop is an order-preserving filter of the new states. -/
def getNewlyAchievedMilestones (oldMilestones newMilestones : List ClubMilestoneState) :
    List ClubMilestoneState :=
  newMilestones.filter (fun newM =>
    newM.achieved &&
      !(match oldMilestones.find? (fun m => m.threshold == newM.threshold) with
        | some oldM => oldM.achieved
        | none => false))

/- ===== Activity logger (src/server/utils/activityLogger.js) ===== -/

/-- A JavaScript value as stored on an activity record: number, string, or
nested object (an association list of property name to value). -/
inductive JVal where
  | vnum (n : Int)
  | vstr (s : String)
  | vobj (fields : List (String × JVal))

/-- JavaScript strict equality as used by activityExists.  The criteria
compared in this codebase are numbers and strings; objects compare by
reference in JavaScript and never structurally, and a missing property
(undefined) never strictly equals a number or string, so both sides of
every comparison involving an object or a missing property yield false. -/
def jsStrictEq : JVal → JVal → Bool
  | JVal.vnum a, JVal.vnum b => a == b
  | JVal.vstr a, JVal.vstr b => a == b
  | _, _ => false

/-- An activity record: a JavaScript object, modelled as an ordered
association list of its own properties. -/
def Activity : Type := List (String × JVal)

/-- MAX_ACTIVITIES from the activity logger. -/
def MAX_ACTIVITIES : Nat := 50

/-- logActivity: builds the record with id, type and timestamp followed by
the spread data properties, unshifts it onto the module-level list and
trims the list to MAX_ACTIVITIES.  The impure id and timestamp are passed
in; the mutated list is returned. -/
def logActivity (idStr nowIso : String) (ty : String) (data : Activity)
    (activities : List Activity) : List Activity :=
  let activity : Activity :=
    ("id", JVal.vstr idStr) :: ("type", JVal.vstr ty) :: ("timestamp", JVal.vstr nowIso) :: data
  (activity :: activities).take MAX_ACTIVITIES

/-- logClubMilestone: logs a club_milestone activity whose milestone
property is a nested object holding threshold, reward and icon. -/
def logClubMilestone (idStr nowIso : String) (milestone : ClubMilestoneState)
    (activities : List Activity) : List Activity :=
  logActivity idStr nowIso "club_milestone"
    [ ("message", JVal.vstr ("Club reached " ++ toString milestone.threshold ++ " rating milestone")),
      ("icon", JVal.vstr "trophy"),
      ("iconClass", JVal.vstr "milestone-icon"),
      ("milestone", JVal.vobj
        [ ("threshold", JVal.vnum milestone.threshold),
          ("reward", JVal.vstr milestone.reward),
          ("icon", JVal.vstr milestone.icon) ]) ]
    activities

/-- activityExists: some activity has the requested type and, for every
criteria key, a direct own property under that exact key name that is
strictly equal to the criteria value.  Note the lookup is flat: a criteria
key containing a dot is looked up literally, not as a nested path. -/
def activityExists (ty : String) (criteria : List (String × JVal))
    (activities : List Activity) : Bool :=
  activities.any (fun activity =>
    (match List.lookup "type" activity with
     | some (JVal.vstr t) => t == ty
     | _ => false) &&
    criteria.all (fun kv =>
      match List.lookup kv.1 activity with
      | some v => jsStrictEq v kv.2
      | none => false))

/- ===== Aggregator (src/server/utils/aggregator.js) ===== -/

/-- The ratings object optionally carried by a member record; each
platform rating may be absent. -/
structure MemberRatings where
  codeforces : Option Int
  leetcode : Option Int
  codechef : Option Int
deriving DecidableEq

/-- A member record as read from the members store.  A missing or empty id
or name is modelled by the empty string (both are falsy in JavaScript);
problemsSolved is none when the property is undefined. -/
structure Member where
  id : String
  name : String
  problemsSolved : Option Int
  ratings : Option MemberRatings
deriving DecidableEq

/-- validateMemberData from the aggregator: requires truthy id and name and
a non-negative problemsSolved when present. -/
def validateMemberData (member : Member) : Bool :=
  !(member.id == "") && !(member.name == "") &&
    (match member.problemsSolved with
     | none => true
     | some n => decide (0 ≤ n))

/-- JavaScript truthiness filter used by the rating pushes inside
aggregateClubStats: a rating is pushed when present and nonzero. -/
def jsTruthyInt (v : Option Int) : Option Int :=
  match v with
  | none => none
  | some n => if n = 0 then none else some n

/-- The club statistics record produced by aggregateClubStats.  The nested
platformStats object is flattened into the prefixed fields. -/
structure ClubStats where
  totalMembers : Nat
  totalProblemsSolved : Int
  averageRating : Int
  cfCount : Nat
  cfAvgRating : Int
  lcCount : Nat
  lcAvgProblems : Int
  ccCount : Nat
  ccAvgRating : Int
deriving DecidableEq

/-- aggregateClubStats from the aggregator.  Members are always objects in
this embedding, so the non-object skip inside the forEach is vacuous. -/
def aggregateClubStats (members : List Member) : ClubStats :=
  if members.isEmpty then
    { totalMembers := 0, totalProblemsSolved := 0, averageRating := 0,
      cfCount := 0, cfAvgRating := 0, lcCount := 0, lcAvgProblems := 0,
      ccCount := 0, ccAvgRating := 0 }
  else
    let totalProblems : Int := members.foldl (fun acc m =>
      match m.problemsSolved with
      | some n => if 0 ≤ n then acc + n else acc
      | none => acc) 0
    let cfRatings : List Int := members.filterMap (fun m => m.ratings.bind (fun r => jsTruthyInt r.codeforces))
    let lcProblems : List Int := members.filterMap (fun m => m.ratings.bind (fun r => jsTruthyInt r.leetcode))
    let ccRatings : List Int := members.filterMap (fun m => m.ratings.bind (fun r => jsTruthyInt r.codechef))
    let avgCF : Int := if 0 < cfRatings.length then jsRound ((cfRatings.foldl (· + ·) 0 : ℚ) / (cfRatings.length : ℚ)) else 0
    let avgLC : Int := if 0 < lcProblems.length then jsRound ((lcProblems.foldl (· + ·) 0 : ℚ) / (lcProblems.length : ℚ)) else 0
    let avgCC : Int := if 0 < ccRatings.length then jsRound ((ccRatings.foldl (· + ·) 0 : ℚ) / (ccRatings.length : ℚ)) else 0
    { totalMembers := members.length
      totalProblemsSolved := totalProblems
      averageRating := jsRound (((avgCF : ℚ) + (avgCC : ℚ)) / 2)
      cfCount := cfRatings.length, cfAvgRating := avgCF
      lcCount := lcProblems.length, lcAvgProblems := avgLC
      ccCount := ccRatings.length, ccAvgRating := avgCC }

/- ===== Sync orchestrator (src/server/utils/syncService.js part) ===== -/

/-- The club data snapshot assembled by performFullSync.  The spread of the
club statistics into the snapshot is modelled by a nested stats field. -/
structure ClubData where
  stats : ClubStats
  milestones : List ClubMilestoneState
  contestStreak : Int
  lastSyncTime : String
deriving DecidableEq

/-- The module-level mutable state of the sync service and the activity
logger: the cached club data and the activity list. -/
structure SyncState where
  cachedClubData : Option ClubData
  activities : List Activity

/-- The environment of one performFullSync call: the member list produced
by fetchAllMembers (which catches its own errors and never throws),
whether the final saveClubData call throws, and the impure id and
timestamp strings. -/
structure SyncEnv where
  members : List Member
  saveFails : Bool
  idStr : String
  nowIso : String

/-- Steps 1 through 9 of the try block of performFullSync: validate and
aggregate the members, recompute the milestone list against the cached
one, append an activity for each newly achieved milestone that the
activityExists guard does not find, assemble the snapshot and store it in
the in-memory cache.  None of these steps can throw: fetchAllMembers and
the milestone and logging helpers are total.  Returns the new snapshot and
the mutated module state. -/
def runSyncBody (env : SyncEnv) (st : SyncState) : ClubData × SyncState :=
  let validMembers := env.members.filter validateMemberData
  let clubStats := aggregateClubStats validMembers
  let previousMilestones := (st.cachedClubData.map (fun cd => cd.milestones)).getD []
  let newMilestones := calculateClubMilestones clubStats.totalProblemsSolved previousMilestones env.nowIso
  let newlyAchieved := getNewlyAchievedMilestones previousMilestones newMilestones
  let activities := newlyAchieved.foldl (fun acts milestone =>
    if activityExists "club_milestone" [("milestone.threshold", JVal.vnum milestone.threshold)] acts
    then acts
    else logClubMilestone env.idStr env.nowIso milestone acts) st.activities
  let clubData : ClubData :=
    { stats := clubStats, milestones := newMilestones, contestStreak := 30, lastSyncTime := env.nowIso }
  (clubData, { cachedClubData := some clubData, activities := activities })

/-- performFullSync: runs the try block, then the saveClubData call, which
is the only step that can throw.  When it throws, control reaches the
catch block, whose fallback returns the cached club data when present and
otherwise rethrows; at that point the cache already holds the snapshot of
the failing run. -/
def performFullSync (env : SyncEnv) (st : SyncState) :
    Except Unit ClubData × SyncState :=
  let body := runSyncBody env st
  if env.saveFails then
    match body.2.cachedClubData with
    | some cached => (Except.ok cached, body.2)
    | none => (Except.error (), body.2)
  else
    (Except.ok body.1, body.2)

/- ===== Codeforces fetcher (src/server.js, fetchCodeforcesStats) ===== -/

/-- Civil date (year, month, day) from a count of days since 1970-01-01,
matching the proleptic Gregorian calendar used by the getUTC accessors of
the JavaScript Date object. -/
def civilFromDays (z0 : Int) : Int × Int × Int :=
  let z := z0 + 719468
  let era : Int := (if 0 ≤ z then z else z - 146096) / 146097
  let doe : Int := z - era * 146097
  let yoe : Int := (doe - doe / 1460 + doe / 36524 - doe / 146096) / 365
  let y : Int := yoe + era * 400
  let doy : Int := doe - (365 * yoe + yoe / 4 - yoe / 100)
  let mp : Int := (5 * doy + 2) / 153
  let d : Int := doy - (153 * mp + 2) / 5 + 1
  let m : Int := mp + (if mp < 10 then 3 else -9)
  (y + (if m ≤ 2 then 1 else 0), m, d)

/-- String.padStart(2, "0") on a rendered integer. -/
def pad2 (n : Int) : String :=
  let s := toString n
  if s.length < 2 then "0" ++ s else s

/-- toDateKey from src/server.js: the UTC calendar date of the given epoch
second count, rendered as YYYY-MM-DD. -/
def toDateKey (timestampSeconds : Int) : String :=
  let ms := timestampSeconds * 1000
  let days := Int.fdiv ms 86400000
  let ymd := civilFromDays days
  toString ymd.1 ++ "-" ++ pad2 ymd.2.1 ++ "-" ++ pad2 ymd.2.2

/-- A problem object attached to a Codeforces submission; contestId, index,
rating and tags may be absent in the API response. -/
structure CFProblem where
  contestId : Option Int
  index : Option String
  name : String
  rating : Option Int
  tags : Option (List String)
deriving DecidableEq

/-- The composite problem key: contestId (falling back to the literal
"custom" when absent or zero, since 0 is falsy) joined with the problem
index (falling back to the problem name when absent or empty). -/
def problemKeyOf (problem : CFProblem) : String :=
  (match problem.contestId with
   | some cid => if cid = 0 then "custom" else toString cid
   | none => "custom") ++ "-" ++
  (match problem.index with
   | some ix => if ix = "" then problem.name else ix
   | none => problem.name)

/-- A Codeforces submission as consumed by the stats loop. -/
structure CFSubmission where
  problem : Option CFProblem
  verdict : Option String
  creationTimeSeconds : Int
deriving DecidableEq

/-- A solved problem record as collected by the stats loop; a zero or
absent API rating becomes null. -/
structure SolvedProblem where
  id : String
  title : String
  rating : Option Int
  tags : List String
deriving DecidableEq

/-- Increment by one the counter stored under a key of a plain-object
counter map, preserving the property insertion order; a missing key is
appended with count one. -/
def bumpCount (counts : List (String × Nat)) (key : String) : List (String × Nat) :=
  match counts with
  | [] => [(key, 1)]
  | (k, v) :: rest => if k = key then (k, v + 1) :: rest else (k, v) :: bumpCount rest key

/-- Set.add on an insertion-ordered set of strings. -/
def setInsert (s : List String) (key : String) : List String :=
  if s.contains key then s else s ++ [key]

/-- The accumulator threaded through the submissions loop of
fetchCodeforcesStats. -/
structure CFLoopState where
  solvedSet : List String
  acceptedCount : Nat
  totalSubmissions : Nat
  tagCounts : List (String × Nat)
  activityCalendar : List (String × Nat)
  solvedProblems : List (String × SolvedProblem)

/-- One iteration of the submissions loop: a submission without a problem
is skipped entirely; otherwise it counts toward totalSubmissions, and a
verdict of "OK" additionally counts toward acceptedCount, inserts the
problem key into the solved set, bumps the UTC-day calendar bucket,
records the solved problem once per key, and bumps every tag counter. -/
def processSubmission (st : CFLoopState) (sub : CFSubmission) : CFLoopState :=
  match sub.problem with
  | none => st
  | some problem =>
    let st := { st with totalSubmissions := st.totalSubmissions + 1 }
    if sub.verdict == some "OK" then
      let key := problemKeyOf problem
      let dateKey := toDateKey sub.creationTimeSeconds
      let tags := match problem.tags with
        | some ts => ts
        | none => []
      { st with
        acceptedCount := st.acceptedCount + 1
        solvedSet := setInsert st.solvedSet key
        activityCalendar := bumpCount st.activityCalendar dateKey
        solvedProblems :=
          match List.lookup key st.solvedProblems with
          | some _ => st.solvedProblems
          | none => st.solvedProblems ++
              [(key, { id := key, title := problem.name,
                       rating := (match problem.rating with
                                  | some r => if r = 0 then none else some r
                                  | none => none),
                       tags := tags })]
        tagCounts := tags.foldl bumpCount st.tagCounts }
    else st

/-- The initial loop accumulator. -/
def initCFLoopState : CFLoopState :=
  { solvedSet := [], acceptedCount := 0, totalSubmissions := 0,
    tagCounts := [], activityCalendar := [], solvedProblems := [] }

/-- The whole submissions loop of fetchCodeforcesStats. -/
def processSubmissions (submissions : List CFSubmission) : CFLoopState :=
  submissions.foldl processSubmission initCFLoopState

/-- One entry of the normalized rating history. -/
structure RatingPoint where
  contestName : String
  rating : Int
  timeSeconds : Int
deriving DecidableEq

/-- One entry of the raw Codeforces rating-update list. -/
structure RatingUpdate where
  contestName : String
  newRating : Int
  ratingUpdateTimeSeconds : Int
deriving DecidableEq

/-- The normalized Codeforces statistics record.  contestFrequency and
tagStrengths keep their entries as key-count pairs. -/
structure CFStats where
  platform : String
  handle : String
  totalProblemsSolved : Nat
  submissionAccuracy : Option ℚ
  ratingHistory : List RatingPoint
  contestFrequency : List (String × Nat)
  tagStrengths : List (String × Nat)
  solvedProblems : List SolvedProblem
  activityCalendar : List (String × Nat)
deriving DecidableEq

/-- The descending-by-count order used for tagStrengths. -/
def tagOrder (a b : String × Nat) : Prop := b.2 ≤ a.2

instance : DecidableRel tagOrder := fun a b => by unfold tagOrder; infer_instance

/-- fetchCodeforcesStats with the network replaced by its parsed
responses: whether the user.info call reported OK (anything else throws),
the rating-update list (empty when the user.rating call was not OK) and
the submission list (empty when the user.status call was not OK).  An
empty handle models the falsy-handle early return.  The JavaScript sort on
tagStrengths is a stable sort by descending count, modelled by insertion
sort. -/
def fetchCodeforcesStats (handle : String) (infoOK : Bool)
    (ratingUpdates : List RatingUpdate) (submissions : List CFSubmission) :
    Except Unit (Option CFStats) :=
  if handle = "" then Except.ok none
  else if !infoOK then Except.error ()
  else
    let ls := processSubmissions submissions
    Except.ok (some
      { platform := "codeforces"
        handle := handle
        totalProblemsSolved := ls.solvedSet.length
        submissionAccuracy :=
          if 0 < ls.totalSubmissions
          then some ((ls.acceptedCount : ℚ) / (ls.totalSubmissions : ℚ))
          else none
        ratingHistory := ratingUpdates.map (fun u =>
          { contestName := u.contestName, rating := u.newRating,
            timeSeconds := u.ratingUpdateTimeSeconds })
        contestFrequency := ratingUpdates.foldl (fun m u =>
          bumpCount m ((toDateKey u.ratingUpdateTimeSeconds).take 7)) []
        tagStrengths := List.insertionSort tagOrder ls.tagCounts
        solvedProblems := ls.solvedProblems.map (fun kv => kv.2)
        activityCalendar := ls.activityCalendar })

/- ===== LeetCode and CodeChef fetchers (src/server.js) ===== -/

/-- The normalized LeetCode statistics record (the fields consumed by the
aggregator; the raw breakdown array is omitted). -/
structure LCStats where
  platform : String
  handle : String
  totalProblemsSolved : Int
  ranking : Int
deriving DecidableEq

/-- The CodeChef record: either scraped statistics or the explicit
transport-failure marker, which carries no totalProblemsSolved property. -/
structure CCStats where
  platform : String
  handle : String
  rating : Option Int
  totalProblemsSolved : Option Int
  supported : Bool
  error : Bool
deriving DecidableEq

/-- fetchCodechefStats with the network replaced by its outcome: an empty
username returns null; a transport failure returns the explicit error
marker; otherwise the optional regex matches for rating and solved count
fall back to zero. -/
def fetchCodechefStats (username : String) (transportFails : Bool)
    (ratingMatch : Option Int) (solvedMatch : Option Int) : Option CCStats :=
  if username = "" then none
  else if transportFails then
    some { platform := "codechef", handle := username, rating := none,
           totalProblemsSolved := none, supported := false, error := true }
  else
    some { platform := "codechef", handle := username,
           rating := some (ratingMatch.getD 0),
           totalProblemsSolved := some (solvedMatch.getD 0),
           supported := true, error := false }

/- ===== Stats aggregation (src/server.js, aggregateStatsForHandles) ===== -/

/-- One element of the platforms array after the filter(Boolean). -/
inductive PlatformRecord where
  | cfRec (s : CFStats)
  | lcRec (s : LCStats)
  | ccRec (s : CCStats)
deriving DecidableEq

/-- The totalProblemsSolved property of a platform record; the CodeChef
failure marker has no such property (undefined, hence none). -/
def PlatformRecord.solvedField : PlatformRecord → Option Int
  | PlatformRecord.cfRec s => some (s.totalProblemsSolved : Int)
  | PlatformRecord.lcRec s => some s.totalProblemsSolved
  | PlatformRecord.ccRec s => s.totalProblemsSolved

/-- The platform property of a platform record. -/
def PlatformRecord.platformField : PlatformRecord → String
  | PlatformRecord.cfRec s => s.platform
  | PlatformRecord.lcRec s => s.platform
  | PlatformRecord.ccRec s => s.platform

/-- The handle property of a platform record. -/
def PlatformRecord.handleField : PlatformRecord → String
  | PlatformRecord.cfRec s => s.handle
  | PlatformRecord.lcRec s => s.handle
  | PlatformRecord.ccRec s => s.handle

/-- One row of the per-platform leaderboard derived by the aggregator. -/
structure PlatformLBEntry where
  platform : String
  handle : String
  totalProblemsSolved : Int
deriving DecidableEq

/-- The descending-by-solved order of the derived per-platform
leaderboard. -/
def platformLBOrder (a b : PlatformLBEntry) : Prop :=
  b.totalProblemsSolved ≤ a.totalProblemsSolved

instance : DecidableRel platformLBOrder := fun a b => by unfold platformLBOrder; infer_instance

/-- The aggregate statistics record returned by
aggregateStatsForHandles. -/
structure AggregateStats where
  totalProblemsSolved : Int
  aggregatedAccuracy : Option ℚ
  platforms : List PlatformRecord
  leaderboardByProblemsSolved : List PlatformLBEntry
deriving DecidableEq

/-- aggregateStatsForHandles with the three platform fetches replaced by
their results (null results are none).  Total solved reduces over the
present platforms with a missing or zero count contributing 0; accuracy
accumulates only the Codeforces figure, weighted by its solved count, and
is null when no submissions were counted.  The sort is stable descending
by solved count. -/
def aggregateStatsForHandles (cf : Option CFStats) (lc : Option LCStats)
    (cc : Option CCStats) : AggregateStats :=
  let platforms : List PlatformRecord :=
    ([cf.map PlatformRecord.cfRec, lc.map PlatformRecord.lcRec,
      cc.map PlatformRecord.ccRec]).filterMap id
  let totalProblemsSolved : Int :=
    platforms.foldl (fun sum p => sum + (p.solvedField.getD 0)) 0
  let totalAccepted : ℚ :=
    match cf with
    | some s =>
      match s.submissionAccuracy with
      | some a => a * (s.totalProblemsSolved : ℚ)
      | none => 0
    | none => 0
  let totalSubmissions : Int :=
    match cf with
    | some s =>
      match s.submissionAccuracy with
      | some _ => (s.totalProblemsSolved : Int)
      | none => 0
    | none => 0
  { totalProblemsSolved := totalProblemsSolved
    aggregatedAccuracy :=
      if 0 < totalSubmissions then some (totalAccepted / (totalSubmissions : ℚ)) else none
    platforms := platforms
    leaderboardByProblemsSolved :=
      List.insertionSort platformLBOrder (platforms.map (fun p =>
        { platform := p.platformField, handle := p.handleField,
          totalProblemsSolved := p.solvedField.getD 0 })) }

/- ===== Leaderboard cache (src/server.js, updateGlobalLeaderboard) ===== -/

/-- The slice of a user record read by the leaderboard refresh; an
unlinked Codeforces handle is the empty string (falsy). -/
structure LBUser where
  id : Int
  name : String
  cfHandle : String
deriving DecidableEq

/-- One leaderboard row.  The error row pushed on a fetch failure sets no
maxRating property (none here) and carries the error flag. -/
structure LBRow where
  userId : Int
  name : String
  handle : String
  platform : String
  totalSolved : Int
  rating : Int
  maxRating : Option Int
  error : Bool
deriving DecidableEq

/-- Outcome of the per-user Codeforces fetch inside the refresh loop: a
statistics object, a falsy result (nothing pushed), or a thrown error
(an explicit error row pushed). -/
inductive LBFetchOutcome where
  | success (stats : CFStats)
  | nullResult
  | failure
deriving DecidableEq

/-- The environment of one refresh pass: the user list returned by
getAllUsers (which catches store errors internally and never rejects),
the per-user fetch outcome indexed by position in that list, and the
Date.now() stamp taken at completion. -/
structure LBEnv where
  users : List LBUser
  fetchOutcome : Nat → LBFetchOutcome
  now : Int

/-- The body of the refresh loop: users without a Codeforces handle are
skipped; a successful fetch pushes a row with the solved count, the last
rating (0 when the history is empty) and the running maximum rating; a
thrown fetch pushes the zeroed error row. -/
def lbRows (env : LBEnv) : List LBRow :=
  env.users.enum.foldl (fun rows iu =>
    if iu.2.cfHandle = "" then rows
    else
      match env.fetchOutcome iu.1 with
      | LBFetchOutcome.success stats =>
        rows ++ [{ userId := iu.2.id, name := iu.2.name, handle := iu.2.cfHandle,
                   platform := "codeforces",
                   totalSolved := (stats.totalProblemsSolved : Int),
                   rating := (match stats.ratingHistory.getLast? with
                              | some p => p.rating
                              | none => 0),
                   maxRating := some (stats.ratingHistory.foldl (fun mx p => max mx p.rating) 0),
                   error := false }]
      | LBFetchOutcome.nullResult => rows
      | LBFetchOutcome.failure =>
        rows ++ [{ userId := iu.2.id, name := iu.2.name, handle := iu.2.cfHandle,
                   platform := "codeforces",
                   totalSolved := 0, rating := 0, maxRating := none,
                   error := true }]) []

/-- The leaderboard ordering: rating descending, then totalSolved
descending. -/
def lbOrder (a b : LBRow) : Prop :=
  b.rating < a.rating ∨ (a.rating = b.rating ∧ b.totalSolved ≤ a.totalSolved)

instance : DecidableRel lbOrder := fun a b => by unfold lbOrder; infer_instance

/-- The module-level leaderboard cache. -/
structure LBCache where
  data : List LBRow
  lastUpdated : Int
  isUpdating : Bool
deriving DecidableEq

/-- updateGlobalLeaderboard as one atomic refresh pass over the
single-threaded event loop: a call made while the isUpdating flag is set
returns immediately without any fetch; otherwise the pass sets the flag,
collects the rows, sorts them (the JavaScript engine sort is stable, so a
stable insertion sort models it), replaces the data, stamps lastUpdated
once and clears the flag.  The Boolean result records whether a fetch
pass executed. -/
def updateGlobalLeaderboard (env : LBEnv) (c : LBCache) : LBCache × Bool :=
  if c.isUpdating then (c, false)
  else
    ({ data := List.insertionSort lbOrder (lbRows env),
       lastUpdated := env.now, isUpdating := false }, true)

/- ===== Recommendation engine (src/recommendations.js) ===== -/

/-- One problem of the cached Codeforces problem catalog. -/
structure CatalogProblem where
  contestId : Int
  index : String
  name : String
  rating : Option Int
  tags : List String
deriving DecidableEq

/-- One recommendation returned to the caller (the link string is derived
from contestId and index and omitted). -/
structure Recommendation where
  title : String
  contestId : Int
  index : String
  rating : Option Int
  tags : List String
deriving DecidableEq

/-- The candidate filter of getRecommendations: the problem must carry a
truthy rating inside the band and its composite key must not be solved. -/
def recCandidate (minRating maxRating : Int) (solvedIds : List String)
    (p : CatalogProblem) : Bool :=
  (match p.rating with
   | none => false
   | some r =>
     if r = 0 then false
     else decide (minRating ≤ r) && decide (r ≤ maxRating) &&
       !(solvedIds.contains (toString p.contestId ++ "-" ++ p.index)))

/-- getRecommendations with the problem-set fetch replaced by the catalog
parameter and the random comparator sort replaced by an arbitrary
rearrangement function (the theorems only assume it returns elements of
its input).  A non-Codeforces or missing statistics object yields the
empty list; otherwise the current rating is the last history entry or 800,
the band is [max(800, r+100), min(3500, r+400)], and up to five shuffled
candidates are mapped to recommendation records. -/
def getRecommendations (userStats : Option CFStats)
    (catalog : List CatalogProblem)
    (shuffle : List CatalogProblem → List CatalogProblem) : List Recommendation :=
  match userStats with
  | none => []
  | some u =>
    if u.platform ≠ "codeforces" then []
    else
      let currentRating : Int :=
        match u.ratingHistory.getLast? with
        | some p => p.rating
        | none => 800
      let minRating := max 800 (currentRating + 100)
      let maxRating := min 3500 (currentRating + 400)
      let solvedIds := u.solvedProblems.map (fun p => p.id)
      let candidates := catalog.filter (recCandidate minRating maxRating solvedIds)
      ((shuffle candidates).take 5).map (fun p =>
        { title := p.name, contestId := p.contestId, index := p.index,
          rating := p.rating, tags := p.tags })

/-- A previously stored snapshot row recording tier 800 as achieved with a
timestamp, used to exhibit the recomputation behaviour. -/
def achievedSnapshot800 : ClubMilestoneState :=
  { threshold := 800, reward := "Chocolate Treat", icon := "🍫",
    achieved := true, date := some "2025-01-01T00:00:00.000Z", progress := 100 }

/-- Recognizes an activity of the given type whose nested milestone object
holds the given threshold: the shape produced by logClubMilestone. -/
def activityHasClubThreshold (activity : Activity) (t : Int) : Bool :=
  (match List.lookup "type" activity with
   | some (JVal.vstr s) => s == "club_milestone"
   | _ => false) &&
  (match List.lookup "milestone" activity with
   | some (JVal.vobj fields) =>
     (match List.lookup "threshold" fields with
      | some (JVal.vnum n) => n == t
      | _ => false)
   | _ => false)

/-- A member record holding the given solved count, used to drive the
sync scenarios. -/
def memberWith (n : Int) : Member :=
  { id := "1", name := "Aryan Chauhan", problemsSolved := some n, ratings := none }

/-- The sync environment at club total n, with fresh id and timestamp
strings per run. -/
def syncEnvAt (n : Int) (idStr nowIso : String) : SyncEnv :=
  { members := [memberWith n], saveFails := false, idStr := idStr, nowIso := nowIso }

/-- The empty initial module state of the sync service. -/
def initialSyncState : SyncState :=
  { cachedClubData := none, activities := [] }

/-- A sync environment at club total n whose final saveClubData call
throws. -/
def syncEnvFailingSave (n : Int) (idStr nowIso : String) : SyncEnv :=
  { members := [memberWith n], saveFails := true, idStr := idStr, nowIso := nowIso }

/-- Module state after a first sync at club total 800 from the empty
state: the log holds the threshold-800 announcement. -/
def dupScenarioState1 : SyncState :=
  (performFullSync (syncEnvAt 800 "i1" "t1") initialSyncState).2

/-- Module state after further syncs at totals 500 and then 800 again. -/
def dupScenarioState3 : SyncState :=
  (performFullSync (syncEnvAt 800 "i3" "t3")
    (performFullSync (syncEnvAt 500 "i2" "t2") dupScenarioState1).2).2

/-- Module state after a successful sync at club total 900 from the empty
state. -/
def failScenarioState1 : SyncState :=
  (performFullSync (syncEnvAt 900 "i1" "t1") initialSyncState).2

/-- The result of a sync at club total 1300 whose final save throws,
started from the cached-900 state. -/
def failScenarioRun : Except Unit ClubData × SyncState :=
  performFullSync (syncEnvFailingSave 1300 "i2" "t2") failScenarioState1

instance : IsTotal LBRow lbOrder :=
  ⟨by intro a b; unfold lbOrder; omega⟩

instance : IsTrans LBRow lbOrder :=
  ⟨by intro a b c hab hbc; unfold lbOrder at *; omega⟩

/-- The submission list holding two verdict-OK submissions to the same
problem at two timestamps. -/
def twoOKSubs (p : CFProblem) (t1 t2 : Int) : List CFSubmission :=
  [ { problem := some p, verdict := some "OK", creationTimeSeconds := t1 },
    { problem := some p, verdict := some "OK", creationTimeSeconds := t2 } ]

/-- A concrete problem used to instantiate the submission-counting
theorem. -/
def cfWitnessProblem : CFProblem :=
  { contestId := some 1, index := some "A", name := "Problem A",
    rating := some 1400, tags := some ["dp", "math"] }

/-- A concrete Codeforces statistics record with current rating 1200 used
to instantiate the recommendation theorem. -/
def recWitnessStats : CFStats :=
  { platform := "codeforces", handle := "tourist", totalProblemsSolved := 0,
    submissionAccuracy := none,
    ratingHistory := [ { contestName := "Round 1", rating := 1200, timeSeconds := 0 } ],
    contestFrequency := [], tagStrengths := [], solvedProblems := [],
    activityCalendar := [] }

/-- A concrete catalog problem inside the band [1300, 1600]. -/
def recWitnessProblem : CatalogProblem :=
  { contestId := 1, index := "A", name := "Problem A", rating := some 1400,
    tags := ["dp"] }

/- ===== Behaviour checks on concrete inputs ===== -/

example :
    (calculateClubMilestones 1200 [] "T").map (fun e => e.achieved) =
      [true, true, false, false, false, false] := by decide

example :
    ((calculateClubMilestones 1200 [] "T").map (fun e => e.date)) =
      [some "T", some "T", none, none, none, none] := by decide

example : (calculateMemberMilestone 150).map (fun m => m.level) = some "Silver Solver" := by decide

example : (calculateMemberMilestone 1500).map (fun m => m.problemsRequired) = some none := by decide

example :
    (performFullSync { members := [{ id := "1", name := "A", problemsSolved := some 900, ratings := none }],
                       saveFails := false, idStr := "i1", nowIso := "t1" }
      { cachedClubData := none, activities := [] }).2.activities.length = 1 := by decide

example : toDateKey 0 = "1970-01-01" := by decide

example : toDateKey 1700000000 = "2023-11-14" := by decide

/- ===== Helper lemmas ===== -/

theorem jsOrString_ne_empty {v : Option String} {fb : String} (h : fb ≠ "") :
    jsOrString v fb ≠ "" := by
  cases v with
  | none => simpa [jsOrString] using h
  | some s => by_cases hs : s = "" <;> simp [jsOrString, hs, h]

theorem jsOrString_some_of_ne {d fb : String} (h : d ≠ "") :
    jsOrString (some d) fb = d := by
  simp [jsOrString, h]

theorem clubMilestoneEntry_threshold (c : Int) (prev : List ClubMilestoneState)
    (now : String) (m : ClubMilestoneDef) :
    (clubMilestoneEntry c prev now m).threshold = m.threshold := rfl

theorem clubMilestoneEntry_achieved_iff (c : Int) (prev : List ClubMilestoneState)
    (now : String) (m : ClubMilestoneDef) :
    (clubMilestoneEntry c prev now m).achieved = true ↔ m.threshold ≤ c := by
  simp [clubMilestoneEntry]

theorem clubMilestoneEntry_date_of_achieved (c : Int) (prev : List ClubMilestoneState)
    (now : String) (m : ClubMilestoneDef) (h : m.threshold ≤ c) :
    (clubMilestoneEntry c prev now m).date
      = some (jsOrString ((prev.find? (fun q => q.threshold == m.threshold)).bind
          (fun q => q.date)) now) := by
  simp [clubMilestoneEntry, h]

theorem clubMilestoneEntry_date_of_not_achieved (c : Int) (prev : List ClubMilestoneState)
    (now : String) (m : ClubMilestoneDef) (h : c < m.threshold) :
    (clubMilestoneEntry c prev now m).date = none := by
  simp [clubMilestoneEntry, not_le.mpr h]

theorem clubMilestoneEntry_not_achieved (c : Int) (prev : List ClubMilestoneState)
    (now : String) (m : ClubMilestoneDef) (h : c < m.threshold) :
    (clubMilestoneEntry c prev now m).achieved = false := by
  simp [clubMilestoneEntry, not_le.mpr h]

theorem find?_calculateClubMilestones (c : Int) (prev : List ClubMilestoneState)
    (now : String) {m : ClubMilestoneDef} (hm : m ∈ CLUB_MILESTONES) :
    (calculateClubMilestones c prev now).find? (fun q => q.threshold == m.threshold)
      = some (clubMilestoneEntry c prev now m) := by
  have hfind : CLUB_MILESTONES.find?
      ((fun q : ClubMilestoneState => q.threshold == m.threshold) ∘
        clubMilestoneEntry c prev now) = some m := by
    fin_cases hm <;> rfl
  rw [calculateClubMilestones, List.find?_map, hfind, Option.map_some']

/- ===== C1 ===== -/

/-- C1: for every solved count c and previous milestone list,
calculateClubMilestones returns one entry per configured club tier, in
order; an entry is achieved exactly when c meets its threshold; when the
previous list carries an achievement date for a tier that c still meets,
that date is returned unchanged; and feeding the result back in as the
previous list with the same or a larger count preserves every achieved
date, so timestamps are stable across repeated calls. -/
theorem calculateClubMilestones_correct (c : Int) (prev : List ClubMilestoneState)
    (now : String) (hnow : now ≠ "") :
    ((calculateClubMilestones c prev now).map (fun e => e.threshold)
        = CLUB_MILESTONES.map (fun m => m.threshold))
    ∧ (∀ e ∈ calculateClubMilestones c prev now, (e.achieved = true ↔ e.threshold ≤ c))
    ∧ (∀ e ∈ calculateClubMilestones c prev now, ∀ p,
        prev.find? (fun q => q.threshold == e.threshold) = some p →
        ∀ d, p.date = some d → d ≠ "" → e.threshold ≤ c → e.date = some d)
    ∧ (∀ c' : Int, c ≤ c' → ∀ now' : String,
        ∀ e ∈ calculateClubMilestones c' (calculateClubMilestones c prev now) now',
          e.threshold ≤ c →
          ∃ e' ∈ calculateClubMilestones c prev now,
            e'.threshold = e.threshold ∧ e.date = e'.date ∧ e'.date ≠ none) := by
  refine ⟨rfl, ?_, ?_, ?_⟩
  · intro e he
    rw [calculateClubMilestones, List.mem_map] at he
    obtain ⟨m, _, rfl⟩ := he
    exact clubMilestoneEntry_achieved_iff c prev now m
  · intro e he p hfind d hdate hd hle
    rw [calculateClubMilestones, List.mem_map] at he
    obtain ⟨m, _, rfl⟩ := he
    rw [clubMilestoneEntry_threshold] at hfind hle
    rw [clubMilestoneEntry_date_of_achieved c prev now m hle, hfind]
    simp [hdate, jsOrString_some_of_ne hd]
  · intro c' hcc now' e he hle
    rw [calculateClubMilestones, List.mem_map] at he
    obtain ⟨m, hm, rfl⟩ := he
    rw [clubMilestoneEntry_threshold] at hle
    refine ⟨clubMilestoneEntry c prev now m, ?_, rfl, ?_, ?_⟩
    · rw [calculateClubMilestones, List.mem_map]
      exact ⟨m, hm, rfl⟩
    · rw [clubMilestoneEntry_date_of_achieved c' _ now' m (le_trans hle hcc),
        find?_calculateClubMilestones c prev now hm, Option.some_bind,
        clubMilestoneEntry_date_of_achieved c prev now m hle]
      exact congrArg some (jsOrString_some_of_ne (jsOrString_ne_empty hnow))
    · rw [clubMilestoneEntry_date_of_achieved c prev now m hle]
      exact Option.some_ne_none _

/-- C1 witness: the theorem instantiated at count 1000, no previous list
and a concrete timestamp. -/
theorem calculateClubMilestones_correct_witness :
    ("2025-01-01T00:00:00.000Z" : String) ≠ ""
    ∧ (((calculateClubMilestones 1000 [] "2025-01-01T00:00:00.000Z").map (fun e => e.threshold)
        = CLUB_MILESTONES.map (fun m => m.threshold))
    ∧ (∀ e ∈ calculateClubMilestones 1000 [] "2025-01-01T00:00:00.000Z",
        (e.achieved = true ↔ e.threshold ≤ 1000))
    ∧ (∀ e ∈ calculateClubMilestones 1000 [] "2025-01-01T00:00:00.000Z", ∀ p,
        ([] : List ClubMilestoneState).find? (fun q => q.threshold == e.threshold) = some p →
        ∀ d, p.date = some d → d ≠ "" → e.threshold ≤ 1000 → e.date = some d)
    ∧ (∀ c' : Int, 1000 ≤ c' → ∀ now' : String,
        ∀ e ∈ calculateClubMilestones c'
            (calculateClubMilestones 1000 [] "2025-01-01T00:00:00.000Z") now',
          e.threshold ≤ 1000 →
          ∃ e' ∈ calculateClubMilestones 1000 [] "2025-01-01T00:00:00.000Z",
            e'.threshold = e.threshold ∧ e.date = e'.date ∧ e'.date ≠ none)) :=
  ⟨by decide, calculateClubMilestones_correct 1000 [] "2025-01-01T00:00:00.000Z" (by decide)⟩

/- ===== C7 ===== -/

/-- C7 counterexample: tier 800 was recorded achieved with a timestamp,
but recomputing from the lower count 0 resets achieved to false and the
date to null, so achievement is not monotonic. -/
theorem clubMilestone_monotonic_counterexample :
    ((calculateClubMilestones 0 [achievedSnapshot800] "2025-02-01T00:00:00.000Z").map
        (fun e => (e.achieved, e.date))).head?
      = some (false, none) := by decide

/-- C7 amended: calculateClubMilestones recomputes achievement from the
current count on every call.  A tier whose threshold the count still meets
stays achieved and keeps a previously recorded non-empty date; a tier
whose threshold exceeds the count comes back with achieved false and a
null date, even when the given previous list recorded it as achieved. -/
theorem calculateClubMilestones_recompute (c : Int) (prev : List ClubMilestoneState)
    (now : String) :
    ∀ e ∈ calculateClubMilestones c prev now,
      (c < e.threshold → e.achieved = false ∧ e.date = none)
      ∧ (e.threshold ≤ c → e.achieved = true
          ∧ ∀ p, prev.find? (fun q => q.threshold == e.threshold) = some p →
              ∀ d, p.date = some d → d ≠ "" → e.date = some d) := by
  intro e he
  rw [calculateClubMilestones, List.mem_map] at he
  obtain ⟨m, _, rfl⟩ := he
  constructor
  · intro hlt
    rw [clubMilestoneEntry_threshold] at hlt
    exact ⟨clubMilestoneEntry_not_achieved c prev now m hlt,
      clubMilestoneEntry_date_of_not_achieved c prev now m hlt⟩
  · intro hle
    rw [clubMilestoneEntry_threshold] at hle
    refine ⟨(clubMilestoneEntry_achieved_iff c prev now m).mpr hle, ?_⟩
    intro p hfind d hdate hd
    rw [clubMilestoneEntry_threshold] at hfind
    rw [clubMilestoneEntry_date_of_achieved c prev now m hle, hfind]
    simp [hdate, jsOrString_some_of_ne hd]

/-- C7 amended witness: at count 700 with the achieved-800 snapshot, the
first returned tier is reset to not achieved with a null date. -/
theorem calculateClubMilestones_recompute_witness :
    ((calculateClubMilestones 700 [achievedSnapshot800] "2025-02-01T00:00:00.000Z").map
        (fun e => (e.achieved, e.date))).head?
      = some (false, none) := by
  have hmem : (calculateClubMilestones 700 [achievedSnapshot800] "2025-02-01T00:00:00.000Z").head?
      = some (clubMilestoneEntry 700 [achievedSnapshot800] "2025-02-01T00:00:00.000Z"
          { threshold := 800, reward := "Chocolate Treat", icon := "🍫" }) := rfl
  have hin : clubMilestoneEntry 700 [achievedSnapshot800] "2025-02-01T00:00:00.000Z"
      { threshold := 800, reward := "Chocolate Treat", icon := "🍫" }
      ∈ calculateClubMilestones 700 [achievedSnapshot800] "2025-02-01T00:00:00.000Z" := by
    rw [calculateClubMilestones, List.mem_map]
    exact ⟨_, by decide, rfl⟩
  have h := (calculateClubMilestones_recompute 700 [achievedSnapshot800]
      "2025-02-01T00:00:00.000Z" _ hin).1 (by decide)
  simp [hmem, List.head?_map, h.1, h.2]

/- ===== C2 ===== -/

/-- C2: for every non-negative solved count, exactly one of the seven
configured individual milestone ranges matches, and
calculateMemberMilestone returns a record naming the level of a matching
tier, never null. -/
theorem calculateMemberMilestone_total (c : Int) (h : 0 ≤ c) :
    INDIVIDUAL_MILESTONES.countP (individualMilestoneMatches c) = 1
    ∧ ∃ r m, calculateMemberMilestone c = some r ∧ m ∈ INDIVIDUAL_MILESTONES
        ∧ individualMilestoneMatches c m = true ∧ r.level = m.level := by
  have hcount : INDIVIDUAL_MILESTONES.countP (individualMilestoneMatches c) = 1 := by
    simp only [INDIVIDUAL_MILESTONES, List.countP_cons, List.countP_nil,
      individualMilestoneMatches, Bool.and_eq_true, decide_eq_true_eq, Bool.and_true]
    split_ifs <;> omega
  refine ⟨hcount, ?_⟩
  have hex : ∃ m ∈ INDIVIDUAL_MILESTONES, individualMilestoneMatches c m = true := by
    rw [← List.countP_pos_iff]
    omega
  obtain ⟨m0, hm0, hp0⟩ := hex
  have hsome : (INDIVIDUAL_MILESTONES.find? (individualMilestoneMatches c)).isSome := by
    rw [List.find?_isSome]
    exact ⟨m0, hm0, hp0⟩
  obtain ⟨m1, hm1⟩ := Option.isSome_iff_exists.mp hsome
  have hcalc : ∃ r, calculateMemberMilestone c = some r ∧ r.level = m1.level := by
    simp only [calculateMemberMilestone, hm1]
    exact ⟨_, rfl, rfl⟩
  obtain ⟨r, hr, hrl⟩ := hcalc
  exact ⟨r, m1, hr, List.mem_of_find?_eq_some hm1, List.find?_some hm1, hrl⟩

/-- C2 witness: the theorem instantiated at count 175. -/
theorem calculateMemberMilestone_total_witness :
    (0 : Int) ≤ 175
    ∧ (INDIVIDUAL_MILESTONES.countP (individualMilestoneMatches 175) = 1
       ∧ ∃ r m, calculateMemberMilestone 175 = some r ∧ m ∈ INDIVIDUAL_MILESTONES
           ∧ individualMilestoneMatches 175 m = true ∧ r.level = m.level) :=
  ⟨by decide, calculateMemberMilestone_total 175 (by decide)⟩

/- ===== C3 ===== -/

/-- C3: the de-duplication guard of performFullSync step 7 never fires.
After a first sync at club total 800 the log holds the club_milestone
announcement for threshold 800, yet activityExists with the criteria key
milestone.threshold reports false, because the lookup uses the literal
dotted name while the logged record nests the threshold inside its
milestone object.  Consequently a sync at total 500 followed by another at
total 800 appends a second announcement for the same threshold. -/
theorem performFullSync_duplicate_announcement :
    dupScenarioState1.activities.countP (fun a => activityHasClubThreshold a 800) = 1
    ∧ activityExists "club_milestone" [("milestone.threshold", JVal.vnum 800)]
        dupScenarioState1.activities = false
    ∧ dupScenarioState3.activities.countP (fun a => activityHasClubThreshold a 800) = 2 := by
  decide

/- ===== C8 ===== -/

/-- C8 counterexample: after a successful sync cached a snapshot counting
900, a run whose final save throws does not return that previous snapshot
unchanged: it returns the new snapshot counting 1300 and overwrites the
cache with it. -/
theorem performFullSync_failure_counterexample :
    (failScenarioState1.cachedClubData.map (fun cd => cd.stats.totalProblemsSolved)) = some 900
    ∧ (failScenarioRun.1.toOption.map (fun cd => cd.stats.totalProblemsSolved)) = some 1300
    ∧ (failScenarioRun.2.cachedClubData.map (fun cd => cd.stats.totalProblemsSolved)) = some 1300 := by
  decide

/- ===== C4 ===== -/

/-- C4: a refresh call made while isUpdating is set returns the cache
unchanged and performs no fetch pass, so at most one pass is in flight
process-wide; a pass that does start stamps lastUpdated exactly once with
the completion time, replaces the data with a permutation of the collected
rows sorted by rating descending then totalSolved descending, and leaves
the cache idle.  Each call is one atomic transition of the cooperative
single-threaded event loop. -/
theorem updateGlobalLeaderboard_single_flight (env : LBEnv) (c : LBCache) :
    (c.isUpdating = true → updateGlobalLeaderboard env c = (c, false))
    ∧ (c.isUpdating = false →
        (updateGlobalLeaderboard env c).2 = true
        ∧ (updateGlobalLeaderboard env c).1.isUpdating = false
        ∧ (updateGlobalLeaderboard env c).1.lastUpdated = env.now
        ∧ (updateGlobalLeaderboard env c).1.data.Perm (lbRows env)
        ∧ List.Sorted lbOrder (updateGlobalLeaderboard env c).1.data) := by
  constructor
  · intro h
    simp [updateGlobalLeaderboard, h]
  · intro h
    refine ⟨?_, ?_, ?_, ?_, ?_⟩ <;>
      simp only [updateGlobalLeaderboard, h, Bool.false_eq_true, if_false]
    · exact List.perm_insertionSort lbOrder (lbRows env)
    · exact List.sorted_insertionSort lbOrder (lbRows env)

/-- C4 witness: with the flag set, a second trigger returns the cache
unchanged and reports that no fetch pass executed. -/
theorem updateGlobalLeaderboard_single_flight_witness :
    (LBCache.mk [] 5 true).isUpdating = true
    ∧ updateGlobalLeaderboard (LBEnv.mk [] (fun _ => LBFetchOutcome.failure) 9)
        (LBCache.mk [] 5 true) = (LBCache.mk [] 5 true, false) :=
  ⟨rfl, (updateGlobalLeaderboard_single_flight
      (LBEnv.mk [] (fun _ => LBFetchOutcome.failure) 9) (LBCache.mk [] 5 true)).1 rfl⟩

/- ===== C5 ===== -/

/-- C5: the aggregate totalProblemsSolved is the sum of the solved counts
of the present platform results, a result lacking the count (the CodeChef
transport-error marker) contributing 0; and the aggregated accuracy is
null whenever the Codeforces result is absent, its submissionAccuracy is
null, or its solved count is zero. -/
theorem aggregateStatsForHandles_spec (cf : Option CFStats) (lc : Option LCStats)
    (cc : Option CCStats) :
    ((aggregateStatsForHandles cf lc cc).totalProblemsSolved
        = (cf.map (fun s => (s.totalProblemsSolved : Int))).getD 0
          + (lc.map (fun s => s.totalProblemsSolved)).getD 0
          + (cc.bind (fun s => s.totalProblemsSolved)).getD 0)
    ∧ (cf = none → (aggregateStatsForHandles cf lc cc).aggregatedAccuracy = none)
    ∧ (∀ s, cf = some s → s.submissionAccuracy = none →
        (aggregateStatsForHandles cf lc cc).aggregatedAccuracy = none)
    ∧ (∀ s, cf = some s → s.totalProblemsSolved = 0 →
        (aggregateStatsForHandles cf lc cc).aggregatedAccuracy = none) := by
  refine ⟨?_, ?_, ?_, ?_⟩
  · rcases cf with _ | s <;> rcases lc with _ | t <;> rcases cc with _ | u <;>
      simp [aggregateStatsForHandles, PlatformRecord.solvedField]
  · rintro rfl
    simp [aggregateStatsForHandles]
  · rintro s rfl hacc
    simp [aggregateStatsForHandles, hacc]
  · rintro s rfl hzero
    rcases hacc : s.submissionAccuracy with _ | a <;>
      simp [aggregateStatsForHandles, hacc, hzero]

/- ===== C9 ===== -/

/-- The cancellation at the heart of the accuracy aggregation: the
accuracy figure weighted by a nonzero solved count and divided by the same
count is unchanged. -/
theorem accuracy_cancel (a : ℚ) (n : ℕ) (hn : n ≠ 0) :
    a * (n : ℚ) / (((n : ℤ)) : ℚ) = a := by
  have h1 : (((n : ℤ)) : ℚ) = (n : ℚ) := by push_cast; ring
  rw [h1, mul_div_assoc, div_self (by exact_mod_cast hn), mul_one]

/-- C9: whenever the aggregated accuracy is non-null it is exactly the
Codeforces submissionAccuracy: the multiplication and the division by the
Codeforces solved count cancel, so the weighting is the identity on the
single Codeforces figure (arithmetic is modelled exactly, over the
rationals). -/
theorem aggregatedAccuracy_identity (cf : Option CFStats) (lc : Option LCStats)
    (cc : Option CCStats) :
    (∀ v, (aggregateStatsForHandles cf lc cc).aggregatedAccuracy = some v →
        ∃ s a, cf = some s ∧ s.submissionAccuracy = some a ∧ v = a)
    ∧ (∀ s a, cf = some s → s.submissionAccuracy = some a →
        s.totalProblemsSolved ≠ 0 →
        (aggregateStatsForHandles cf lc cc).aggregatedAccuracy = some a) := by
  constructor
  · intro v hv
    rcases cf with _ | s
    · simp [aggregateStatsForHandles] at hv
    · rcases hacc : s.submissionAccuracy with _ | a
      · simp [aggregateStatsForHandles, hacc] at hv
      · refine ⟨s, a, rfl, hacc, ?_⟩
        rcases hn : s.totalProblemsSolved with _ | n
        · simp [aggregateStatsForHandles, hacc, hn] at hv
        · simp only [aggregateStatsForHandles, hacc] at hv
          rw [if_pos (by rw [hn]; positivity), accuracy_cancel a s.totalProblemsSolved
            (by rw [hn]; exact Nat.succ_ne_zero n)] at hv
          exact (Option.some_injective _ hv).symm
  · rintro s a rfl hacc hn
    simp only [aggregateStatsForHandles, hacc]
    rw [if_pos (by exact_mod_cast Nat.pos_of_ne_zero hn),
      accuracy_cancel a s.totalProblemsSolved hn]

/- ===== C6 ===== -/

/-- C6: getRecommendations returns at most five problems, and every
returned problem carries a rating inside the growth band
[max(800, r+100), min(3500, r+400)] for the current rating r (the last
rating-history entry, or 800 when the history is empty) and a
contestId-index key outside the solved set.  The random shuffle is any
rearrangement that returns elements of its input. -/
theorem getRecommendations_spec (u : CFStats) (catalog : List CatalogProblem)
    (shuffle : List CatalogProblem → List CatalogProblem)
    (hshuffle : ∀ l x, x ∈ shuffle l → x ∈ l) :
    (getRecommendations (some u) catalog shuffle).length ≤ 5
    ∧ ∀ q ∈ getRecommendations (some u) catalog shuffle,
        ∃ rv, q.rating = some rv
          ∧ max 800 ((match u.ratingHistory.getLast? with
              | some pt => pt.rating
              | none => 800) + 100) ≤ rv
          ∧ rv ≤ min 3500 ((match u.ratingHistory.getLast? with
              | some pt => pt.rating
              | none => 800) + 400)
          ∧ (u.solvedProblems.map (fun sp => sp.id)).contains
              (toString q.contestId ++ "-" ++ q.index) = false := by
  by_cases hp : u.platform = "codeforces"
  · constructor
    · simp only [getRecommendations, hp, ne_eq, not_true_eq_false, if_false,
        List.length_map]
      exact le_trans (List.length_take_le 5 _) (le_refl 5)
    · intro q hq
      simp only [getRecommendations, hp, ne_eq, not_true_eq_false, if_false,
        List.mem_map] at hq
      obtain ⟨pr, hp5, rfl⟩ := hq
      have hpc := hshuffle _ _ (List.mem_of_mem_take hp5)
      rw [List.mem_filter] at hpc
      obtain ⟨-, hcand⟩ := hpc
      rcases hr : pr.rating with _ | rv
      · simp only [recCandidate, hr] at hcand
        exact absurd hcand (by simp)
      · simp only [recCandidate, hr] at hcand
        by_cases h0 : rv = 0
      -- a zero rating is falsy and is filtered out before the band check
        · rw [if_pos h0] at hcand
          exact absurd hcand (by simp)
        · rw [if_neg h0] at hcand
          simp only [Bool.and_eq_true, decide_eq_true_eq, Bool.not_eq_true'] at hcand
          exact ⟨rv, rfl, hcand.1.1, hcand.1.2, hcand.2⟩
  · constructor
    · simp [getRecommendations, hp]
    · intro q hq
      simp [getRecommendations, hp] at hq

/- ===== C10 ===== -/

/-- Looking a key up after a bump: the bumped key gains one, every other
key is unchanged. -/
theorem lookup_bumpCount (m : List (String × Nat)) (k tg : String) :
    (List.lookup tg (bumpCount m k)).getD 0
      = (List.lookup tg m).getD 0 + (if tg = k then 1 else 0) := by
  induction m with
  | nil =>
    by_cases h : tg = k
    · subst h; simp [bumpCount]
    · have hb : (tg == k) = false := beq_eq_false_iff_ne.mpr h
      simp [bumpCount, List.lookup, hb, h]
  | cons kv rest ih =>
    obtain ⟨k1, v⟩ := kv
    by_cases h1 : k1 = k
    · subst h1
      by_cases h2 : tg = k1
      · subst h2; simp [bumpCount]
      · have hb : (tg == k1) = false := beq_eq_false_iff_ne.mpr h2
        simp [bumpCount, List.lookup, hb, h2]
    · by_cases h2 : tg = k1
      · subst h2
        have hk : ¬(tg = k) := fun hh => h1 (hh ▸ rfl)
        simp [bumpCount, List.lookup, h1, hk]
      · have hb : (tg == k1) = false := beq_eq_false_iff_ne.mpr h2
        simp [bumpCount, List.lookup, h1, hb, ih]

/-- Folding bumps over a tag list adds each occurrence count to the
looked-up counter. -/
theorem lookupCount_foldl_bump (tags : List String) (m : List (String × Nat))
    (tg : String) :
    (List.lookup tg (tags.foldl bumpCount m)).getD 0
      = (List.lookup tg m).getD 0 + tags.count tg := by
  induction tags generalizing m with
  | nil => simp
  | cons t rest ih =>
    rw [List.foldl_cons, ih, lookup_bumpCount, List.count_cons]
    by_cases h : tg = t
    · subst h; simp; omega
    · have hb : (t == tg) = false := beq_eq_false_iff_ne.mpr (fun hh => h hh.symm)
      simp [h, hb]

/-- A bump raises the total of all counters by exactly one. -/
theorem valsSum_bumpCount (m : List (String × Nat)) (k : String) :
    ((bumpCount m k).map (fun kv => kv.2)).sum
      = ((m.map (fun kv => kv.2)).sum) + 1 := by
  induction m with
  | nil => simp [bumpCount]
  | cons kv rest ih =>
    obtain ⟨k1, v⟩ := kv
    by_cases h : k1 = k <;> simp [bumpCount, h, ih] <;> omega

/-- Folding bumps over a tag list raises the total of all counters by the
length of the list. -/
theorem valsSum_foldl_bump (tags : List String) (m : List (String × Nat)) :
    ((tags.foldl bumpCount m).map (fun kv => kv.2)).sum
      = ((m.map (fun kv => kv.2)).sum) + tags.length := by
  induction tags generalizing m with
  | nil => simp
  | cons t rest ih =>
    rw [List.foldl_cons, ih, valsSum_bumpCount, List.length_cons]
    omega

/-- C10: tagStrengths and activityCalendar count accepted submissions
rather than distinct problems.  For a submission list holding two
verdict-OK submissions to the same problem, each tag of the problem is
counted twice and the calendar entries total two, while
totalProblemsSolved counts the problem once, by its distinct
contestId-index key. -/
theorem fetchCodeforcesStats_counts_submissions
    (p : CFProblem) (tags : List String) (t1 t2 : Int)
    (htags : p.tags = some tags) (hnd : tags.Nodup) :
    (processSubmissions (twoOKSubs p t1 t2)).solvedSet.length = 1
    ∧ (∀ tg ∈ tags,
        (List.lookup tg (processSubmissions (twoOKSubs p t1 t2)).tagCounts).getD 0 = 2)
    ∧ ((processSubmissions (twoOKSubs p t1 t2)).activityCalendar.map (fun kv => kv.2)).sum = 2
    ∧ (processSubmissions (twoOKSubs p t1 t2)).acceptedCount = 2
    ∧ ((fetchCodeforcesStats "handle" true [] (twoOKSubs p t1 t2)).toOption.join.map
        (fun s => s.totalProblemsSolved)) = some 1
    ∧ ((fetchCodeforcesStats "handle" true [] (twoOKSubs p t1 t2)).toOption.join.map
        (fun s => (s.tagStrengths.map (fun kv => kv.2)).sum)) = some (2 * tags.length)
    ∧ ((fetchCodeforcesStats "handle" true [] (twoOKSubs p t1 t2)).toOption.join.map
        (fun s => (s.activityCalendar.map (fun kv => kv.2)).sum)) = some 2 := by
  have hss : (processSubmissions (twoOKSubs p t1 t2)).solvedSet = [problemKeyOf p] := by
    simp [twoOKSubs, processSubmissions, processSubmission, initCFLoopState, setInsert,
      List.lookup, htags]
  have htc : (processSubmissions (twoOKSubs p t1 t2)).tagCounts
      = tags.foldl bumpCount (tags.foldl bumpCount []) := by
    simp [twoOKSubs, processSubmissions, processSubmission, initCFLoopState, setInsert,
      List.lookup, htags]
  have hcal : (processSubmissions (twoOKSubs p t1 t2)).activityCalendar
      = bumpCount (bumpCount [] (toDateKey t1)) (toDateKey t2) := by
    simp [twoOKSubs, processSubmissions, processSubmission, initCFLoopState, setInsert,
      List.lookup, htags]
  have hcalsum :
      ((processSubmissions (twoOKSubs p t1 t2)).activityCalendar.map (fun kv => kv.2)).sum = 2 := by
    rw [hcal, valsSum_bumpCount, valsSum_bumpCount]
    simp
  have htagcount : ∀ tg ∈ tags,
      (List.lookup tg (processSubmissions (twoOKSubs p t1 t2)).tagCounts).getD 0 = 2 := by
    intro tg htg
    rw [htc, lookupCount_foldl_bump, lookupCount_foldl_bump,
      List.count_eq_one_of_mem hnd htg]
    simp
  refine ⟨by rw [hss]; rfl, htagcount, hcalsum, ?_, ?_, ?_, ?_⟩
  · simp [twoOKSubs, processSubmissions, processSubmission, initCFLoopState, setInsert,
      List.lookup, htags]
  · have hproj : ((fetchCodeforcesStats "handle" true [] (twoOKSubs p t1 t2)).toOption.join.map
        (fun s => s.totalProblemsSolved))
        = some ((processSubmissions (twoOKSubs p t1 t2)).solvedSet.length) := rfl
    rw [hproj, hss]
    rfl
  · have hproj : ((fetchCodeforcesStats "handle" true [] (twoOKSubs p t1 t2)).toOption.join.map
        (fun s => (s.tagStrengths.map (fun kv => kv.2)).sum))
        = some (((List.insertionSort tagOrder
            (processSubmissions (twoOKSubs p t1 t2)).tagCounts).map (fun kv => kv.2)).sum) := rfl
    rw [hproj, htc]
    have hperm := (List.perm_insertionSort tagOrder
        (tags.foldl bumpCount (tags.foldl bumpCount []))).map (fun kv => kv.2)
    rw [hperm.sum_eq, valsSum_foldl_bump, valsSum_foldl_bump]
    simp
    omega
  · have hproj : ((fetchCodeforcesStats "handle" true [] (twoOKSubs p t1 t2)).toOption.join.map
        (fun s => (s.activityCalendar.map (fun kv => kv.2)).sum))
        = some (((processSubmissions (twoOKSubs p t1 t2)).activityCalendar.map (fun kv => kv.2)).sum) := rfl
    rw [hproj, hcalsum]

/-- C10 witness: the theorem instantiated at a concrete problem with tags
dp and math and two accepted submissions one day apart. -/
theorem fetchCodeforcesStats_counts_submissions_witness :
    cfWitnessProblem.tags = some ["dp", "math"]
    ∧ (["dp", "math"] : List String).Nodup
    ∧ ((processSubmissions (twoOKSubs cfWitnessProblem 0 86400)).solvedSet.length = 1
      ∧ (∀ tg ∈ (["dp", "math"] : List String),
          (List.lookup tg (processSubmissions (twoOKSubs cfWitnessProblem 0 86400)).tagCounts).getD 0 = 2)
      ∧ ((processSubmissions (twoOKSubs cfWitnessProblem 0 86400)).activityCalendar.map
          (fun kv => kv.2)).sum = 2
      ∧ (processSubmissions (twoOKSubs cfWitnessProblem 0 86400)).acceptedCount = 2
      ∧ ((fetchCodeforcesStats "handle" true [] (twoOKSubs cfWitnessProblem 0 86400)).toOption.join.map
          (fun s => s.totalProblemsSolved)) = some 1
      ∧ ((fetchCodeforcesStats "handle" true [] (twoOKSubs cfWitnessProblem 0 86400)).toOption.join.map
          (fun s => (s.tagStrengths.map (fun kv => kv.2)).sum))
          = some (2 * (["dp", "math"] : List String).length)
      ∧ ((fetchCodeforcesStats "handle" true [] (twoOKSubs cfWitnessProblem 0 86400)).toOption.join.map
          (fun s => (s.activityCalendar.map (fun kv => kv.2)).sum)) = some 2) :=
  ⟨rfl, by decide,
    fetchCodeforcesStats_counts_submissions cfWitnessProblem ["dp", "math"] 0 86400 rfl
      (by decide)⟩

/-- C6 witness: the theorem instantiated at the rating-1200 user, a
one-problem catalog and the identity shuffle. -/
theorem getRecommendations_spec_witness :
    (getRecommendations (some recWitnessStats) [recWitnessProblem] id).length ≤ 5
    ∧ ∀ q ∈ getRecommendations (some recWitnessStats) [recWitnessProblem] id,
        ∃ rv, q.rating = some rv
          ∧ max 800 ((match recWitnessStats.ratingHistory.getLast? with
              | some pt => pt.rating
              | none => 800) + 100) ≤ rv
          ∧ rv ≤ min 3500 ((match recWitnessStats.ratingHistory.getLast? with
              | some pt => pt.rating
              | none => 800) + 400)
          ∧ (recWitnessStats.solvedProblems.map (fun sp => sp.id)).contains
              (toString q.contestId ++ "-" ++ q.index) = false :=
  getRecommendations_spec recWitnessStats [recWitnessProblem] id (fun _ _ h => h)

/-- C8 amended: the only fallible step of performFullSync is the final
database save, which runs after the in-memory cache has been replaced; the
catch-block fallback therefore returns the freshly cached new snapshot, so
the call always succeeds with the new snapshot and the cache keeps it,
whether or not the save throws, and the rethrow branch is unreachable. -/
theorem performFullSync_always_caches (env : SyncEnv) (st : SyncState) :
    performFullSync env st
      = (Except.ok (runSyncBody env st).1, (runSyncBody env st).2)
    ∧ (runSyncBody env st).2.cachedClubData = some (runSyncBody env st).1 := by
  have hcache : (runSyncBody env st).2.cachedClubData = some (runSyncBody env st).1 := rfl
  refine ⟨?_, hcache⟩
  cases hs : env.saveFails <;> simp [performFullSync, hs, hcache]

